import Mathlib

/-!
Shallow embedding of `src/optional.h`: the C++ class `Optional<T>`.

The C++ object owns two `Item` nodes at most:
  * `m_end`, a sentinel `Item` embedded by value in the object; and
  * `*m_container`, a heap `Item` allocated by `update` (or absent,
    `m_container == nullptr`).
Every `Item*` that the class ever stores or hands out points to one of
those two nodes (or is null).  We therefore model a pointer target with
the two-value type `NodeRef`, and the whole object state with the fields
`m_end : Item T` and `m_container : Option (Item T)`.

C++ default construction of a `T` (what `pointerInit` leaves in a fresh
`Item`'s `data` field: a default-constructed value, or `nullptr` for
pointer `T`) is modelled by an explicit parameter `d : T` supplied to the
operations that default-construct an `Item`.

Both `throw` sites raise `std::runtime_error`; the spec names the one in
`get` *IllegalAccess* and the one in `update` *FaultedState*.  We keep the
two sites apart as two constructors of `CppError`, each carrying the
message string the source builds (for `get`, the stable prefix of the
message, which the source extends with `__FILE__` and `__LINE__`).
-/

namespace OptCpp

/-- Target of a non-null `Item*` inside one `Optional<T>` object: the
embedded sentinel `m_end`, or the heap cell `*m_container`. -/
inductive NodeRef : Type where
  | sentinel : NodeRef
  | cell : NodeRef
deriving DecidableEq

/-- `Optional<T>::Item`: a next pointer and a `T` payload. -/
structure Item (T : Type) where
  next : NodeRef
  data : T
deriving DecidableEq

/-- A fresh `Item` (`Item() : next(this) { pointerInit(data); }`): its
`next` points to itself — `self` says which of the two nodes it is — and
its payload is the default-constructed `d`. -/
def Item.fresh {T : Type} (self : NodeRef) (d : T) : Item T :=
  { next := self, data := d }

/-- Run-time errors of the class.  Both are `std::runtime_error` in the
source; the constructor records the throw site (`get` vs `update`) with
the message built there. -/
inductive CppError : Type where
  | illegalAccess (msg : String) : CppError
  | faultedState (msg : String) : CppError
deriving DecidableEq

/-- Stable prefix of the message thrown by `get()` on an empty
`Optional` (the source appends `__FILE__` and `__LINE__`). -/
def illegalAccessMsg : String := "The Optional needs to be set before access"

/-- Message thrown by `update` when `m_container` is already set. -/
def faultedStateMsg : String := "Something bad happened in Optional"

/-- State of one `Optional<T>` object. -/
structure Optional (T : Type) where
  m_end : Item T
  m_container : Option (Item T)
deriving DecidableEq

/-- `Optional()` — the no-arg constructor: `m_end` is a fresh `Item`
pointing at itself, `m_container` is null. -/
def Optional.mkEmpty {T : Type} (d : T) : Optional T :=
  { m_end := Item.fresh NodeRef.sentinel d, m_container := none }

/-- `Optional<T>::update(Args&&... args)`.  The body first runs
`T data(std::forward<Args>(args)...)` — `construct` is the outcome of
that `T` constructor call, `Except.error e` when it throws — then checks
`m_container`, throwing `std::runtime_error(faultedStateMsg)` if it is
already set, and otherwise allocates the heap `Item` (`new Item`, whose
fresh `data` is the default `d`), move-assigns `data` into it, links
`m_container->next = &m_end` and `m_end.next = m_container`.  The result
pairs the control outcome (`Except.error` models a throw escaping the
method) with the post-state of the object; on a throw no member has been
assigned, so the post-state is the input state. -/
def Optional.update {T : Type} (s : Optional T) (construct : Except CppError T)
    (d : T) : Except CppError Unit × Optional T :=
  match construct with
  | Except.error e => (Except.error e, s)
  | Except.ok data =>
    if s.m_container.isSome then
      (Except.error (CppError.faultedState faultedStateMsg), s)
    else
      let cell := { Item.fresh NodeRef.cell d with
                      data := data, next := NodeRef.sentinel }
      (Except.ok (), { m_end := { s.m_end with next := NodeRef.cell },
                       m_container := some cell })

/-- `Optional(const T& data)` — the single-argument constructor: build the
empty state, then `update(data)` with the copy of `data` (the fresh
object is empty, so this `update` cannot throw `FaultedState`). -/
def Optional.mkWith {T : Type} (d : T) (v : T) : Optional T :=
  ((Optional.mkEmpty d).update (Except.ok v) d).2

/-- `Optional(Args&&... args)` — the emplacement constructor: build the
empty state, then `update(std::forward<Args>(args)...)`, where
`construct` is the outcome of running `T`'s own constructor on the
forwarded arguments. -/
def Optional.mkEmplace {T : Type} (d : T) (construct : Except CppError T) :
    Except CppError Unit × Optional T :=
  (Optional.mkEmpty d).update construct d

/-- `empty()`: true iff `m_container == nullptr`. -/
def Optional.empty {T : Type} (s : Optional T) : Bool :=
  s.m_container.isNone

/-- `defined()`: true iff `m_container != nullptr`. -/
def Optional.defined {T : Type} (s : Optional T) : Bool :=
  s.m_container.isSome

/-- `get()`: the contained payload when `m_container` is set, otherwise a
thrown `std::runtime_error` whose message says the Optional needs to be
set before access. -/
def Optional.get {T : Type} (s : Optional T) : Except CppError T :=
  match s.m_container with
  | some item => Except.ok item.data
  | none => Except.error (CppError.illegalAccess illegalAccessMsg)

/-- `Optional<T>::iterator`: wraps the `Item* m_node`. -/
structure Iterator : Type where
  m_node : NodeRef
deriving DecidableEq

/-- Dereference a `NodeRef` against the object state: the sentinel ref
yields `m_end`, the cell ref yields `*m_container`.  `none` models a
dangling `Item*` (cell ref while `m_container` is null); no iterator
obtained from `begin()`/`end()` of a well-formed object is dangling. -/
def Optional.nodeAt {T : Type} (s : Optional T) : NodeRef → Option (Item T)
  | NodeRef.sentinel => some s.m_end
  | NodeRef.cell => s.m_container

/-- `begin()`: `iterator(m_end.next)`. -/
def Optional.begin {T : Type} (s : Optional T) : Iterator :=
  { m_node := s.m_end.next }

/-- `end()`: `iterator(&m_end)`. -/
def Optional.endIter {T : Type} (_s : Optional T) : Iterator :=
  { m_node := NodeRef.sentinel }

/-- `iterator::operator++`: `m_node = m_node->next`. -/
def Iterator.inc {T : Type} (it : Iterator) (s : Optional T) : Option Iterator :=
  (s.nodeAt it.m_node).map (fun item => { m_node := item.next })

/-- `iterator::operator*`: `return m_node->data;` — unguarded, also at the
sentinel, where it yields `m_end.data`. -/
def Iterator.deref {T : Type} (it : Iterator) (s : Optional T) : Option T :=
  (s.nodeAt it.m_node).map Item.data

/-- `iterator::operator==`: compares the wrapped `Item*`s. -/
def Iterator.beq (a b : Iterator) : Bool :=
  decide (a.m_node = b.m_node)

/-- One traversal `for (it = from; it != end(); ++it) collect *it`,
translated with fuel (the pointer chain could in principle loop; on
well-formed states 2 units always suffice). -/
def Optional.traverseFrom {T : Type} (s : Optional T) :
    Nat → Iterator → List T
  | 0, _ => []
  | fuel + 1, it =>
    if (it.beq s.endIter) = true then []
    else
      match it.deref s, it.inc s with
      | some v, some it2 => v :: s.traverseFrom fuel it2
      | _, _ => []

/-- The element sequence of one full traversal from `begin()` to
`end()`. -/
def Optional.toList {T : Type} (s : Optional T) : List T :=
  s.traverseFrom 2 s.begin

/-- The pointer invariant every reachable `Optional` state satisfies:
when empty, `m_end.next` points back at `m_end`; when set, `m_end.next`
points at the heap cell and the heap cell's `next` points back at
`m_end`. -/
def Optional.WF {T : Type} (s : Optional T) : Prop :=
  (s.m_container = none → s.m_end.next = NodeRef.sentinel) ∧
  (∀ item, s.m_container = some item →
    s.m_end.next = NodeRef.cell ∧ item.next = NodeRef.sentinel)

/-- The public member functions (the constructors aside): each takes the
object state; none of them assigns to a member. -/
inductive PublicOp (T : Type) : Type where
  | isEmptyOp : PublicOp T
  | isDefinedOp : PublicOp T
  | getOp : PublicOp T
  | beginOp : PublicOp T
  | endOp : PublicOp T
  | iterateOp : PublicOp T

/-- Result of one public operation. -/
inductive OpResult (T : Type) : Type where
  | boolRes (b : Bool) : OpResult T
  | valRes (v : Except CppError T) : OpResult T
  | iterRes (it : Iterator) : OpResult T
  | listRes (l : List T) : OpResult T

/-- Run one public operation: the translation of each method body,
paired with the object state after the call.  No method body writes a
member, so each post-state is the input state — this is read off the
source, where `empty`, `defined`, `get`, `begin` and `end` only read
`m_container`/`m_end`, and a traversal mutates only its iterator. -/
def PublicOp.run {T : Type} : PublicOp T → Optional T → OpResult T × Optional T
  | PublicOp.isEmptyOp, s => (OpResult.boolRes s.empty, s)
  | PublicOp.isDefinedOp, s => (OpResult.boolRes s.defined, s)
  | PublicOp.getOp, s => (OpResult.valRes s.get, s)
  | PublicOp.beginOp, s => (OpResult.iterRes s.begin, s)
  | PublicOp.endOp, s => (OpResult.iterRes s.endIter, s)
  | PublicOp.iterateOp, s => (OpResult.listRes s.toList, s)

/-- Run a sequence of public operations, threading the state. -/
def runSeq {T : Type} (ops : List (PublicOp T)) (s : Optional T) : Optional T :=
  ops.foldl (fun st op => (PublicOp.run op st).2) s

end OptCpp

namespace OptCpp

/-! ## Helper lemmas -/

theorem wf_mkEmpty {T : Type} (d : T) : (Optional.mkEmpty d).WF := by
  constructor
  · intro _; rfl
  · intro item h; simp [Optional.mkEmpty] at h

theorem update_wf {T : Type} {s : Optional T} (hwf : s.WF)
    (construct : Except CppError T) (d : T) :
    (s.update construct d).2.WF := by
  rcases construct with e | v
  · exact hwf
  · by_cases h : s.m_container.isSome
    · simpa [Optional.update, h] using hwf
    · constructor
      · intro hc
        simp [Optional.update, h] at hc
      · intro item hitem
        simp [Optional.update, h] at hitem ⊢
        simp [← hitem]

theorem wf_mkWith {T : Type} (d v : T) : (Optional.mkWith d v).WF :=
  update_wf (wf_mkEmpty d) (Except.ok v) d

theorem mkWith_container {T : Type} (d v : T) :
    (Optional.mkWith d v).m_container
      = some { next := NodeRef.sentinel, data := v } := rfl

/-! ## Claims -/

/-- C1.  For every container, `get()` on an empty container fails with the
`IllegalAccess` error carrying the "needs to be set before access"
message — it is an `Except.error`, never a silently returned default or
null — and on a set container `get()` returns the contained value with no
error. -/
theorem get_access_contract {T : Type} (s : Optional T) :
    (s.empty = true →
      s.get = Except.error (CppError.illegalAccess illegalAccessMsg)) ∧
    (∀ item, s.m_container = some item →
      s.defined = true ∧ s.get = Except.ok item.data) := by
  constructor
  · intro h
    rcases hc : s.m_container with _ | item
    · simp [Optional.get, hc]
    · simp [Optional.empty, hc] at h
  · intro item h
    simp [Optional.defined, Optional.get, h]

/-- Witness for C1: both branches at concrete containers over `Nat`. -/
theorem get_access_contract_witness :
    (Optional.mkEmpty (0 : Nat)).get
        = Except.error (CppError.illegalAccess illegalAccessMsg) ∧
    (Optional.mkWith (0 : Nat) 7).get = Except.ok 7 := by
  refine ⟨(get_access_contract (Optional.mkEmpty (0 : Nat))).1 rfl, ?_⟩
  exact ((get_access_contract (Optional.mkWith (0 : Nat) 7)).2
    { next := NodeRef.sentinel, data := 7 } rfl).2

/-- C3.  A container constructed with a value — by the single-argument
constructor or by emplacement, when `T`'s constructor produces `w` from
the forwarded arguments — is defined and `get()` returns that value. -/
theorem construction_invariant {T : Type} (d v : T) :
    (Optional.mkWith d v).defined = true ∧
    (Optional.mkWith d v).get = Except.ok v ∧
    (∀ construct : Except CppError T, ∀ w : T, construct = Except.ok w →
      (Optional.mkEmplace d construct).2.defined = true ∧
      (Optional.mkEmplace d construct).2.get = Except.ok w) := by
  refine ⟨rfl, rfl, ?_⟩
  rintro construct w rfl
  exact ⟨rfl, rfl⟩

/-- Witness for C3: emplacement over `Nat` with a succeeding `T`
constructor producing `9`. -/
theorem construction_invariant_witness :
    (Optional.mkEmplace (0 : Nat) (Except.ok 9)).2.defined = true ∧
    (Optional.mkEmplace (0 : Nat) (Except.ok 9)).2.get = Except.ok 9 :=
  (construction_invariant (0 : Nat) 9).2.2 (Except.ok 9) 9 rfl

/-- C7.  For every container state, `empty()` is exactly the boolean
negation of `defined()`; both are total functions of the state with no
state change. -/
theorem emptiness_duality {T : Type} (s : Optional T) :
    s.empty = !s.defined ∧
    (PublicOp.run PublicOp.isEmptyOp s).2 = s ∧
    (PublicOp.run PublicOp.isDefinedOp s).2 = s := by
  refine ⟨?_, rfl, rfl⟩
  rcases h : s.m_container with _ | item <;> simp [Optional.empty, Optional.defined, h]

/-- C9.  A default-constructed container is empty: `m_container` is null
and `empty()` returns true; the constructor is a total function with no
error outcome. -/
theorem default_construct_empty {T : Type} (d : T) :
    (Optional.mkEmpty d).empty = true ∧
    (Optional.mkEmpty d).m_container = none :=
  ⟨rfl, rfl⟩

end OptCpp

namespace OptCpp

/-! ## Iteration lemmas -/

theorem traverse_at_end {T : Type} (s : Optional T) (f : Nat) :
    s.traverseFrom f s.endIter = [] := by
  cases f <;> simp [Optional.traverseFrom, Iterator.beq, Optional.endIter]

theorem traverse_of_empty {T : Type} {s : Optional T} (hwf : s.WF)
    (h : s.m_container = none) (f : Nat) :
    s.traverseFrom f s.begin = [] := by
  have hb : s.begin = s.endIter := by
    simp [Optional.begin, Optional.endIter, hwf.1 h]
  rw [hb]
  exact traverse_at_end s f

theorem traverse_of_set {T : Type} {s : Optional T} (hwf : s.WF)
    {item : Item T} (h : s.m_container = some item) {f : Nat} (hf : 1 ≤ f) :
    s.traverseFrom f s.begin = [item.data] := by
  obtain ⟨hnext, hcell⟩ := hwf.2 item h
  obtain ⟨n, rfl⟩ : ∃ n, f = n + 1 := ⟨f - 1, by omega⟩
  have hb : s.begin = { m_node := NodeRef.cell } := by
    simp [Optional.begin, hnext]
  have hstep :
      s.traverseFrom (n + 1) s.begin
        = item.data :: s.traverseFrom n s.endIter := by
    rw [hb]
    simp [Optional.traverseFrom, Iterator.beq, Optional.endIter,
      Iterator.deref, Iterator.inc, Optional.nodeAt, h, hcell]
  rw [hstep, traverse_at_end]

/-! ## Claims, continued -/

/-- C2.  Iterating a set container yields exactly the one stored value;
iterating an empty container yields zero elements with no error; and
iteration is restartable: a traversal leaves the object state unchanged,
and every traversal of the same state (any fuel that lets the loop run)
yields the same sequence. -/
theorem iteration_cardinality {T : Type} (s : Optional T) (hwf : s.WF) :
    (s.empty = true → s.toList = []) ∧
    (∀ item, s.m_container = some item → s.toList = [item.data]) ∧
    (∀ f, 1 ≤ f → s.traverseFrom f s.begin = s.toList) ∧
    (PublicOp.run PublicOp.iterateOp s).2 = s := by
  refine ⟨?_, ?_, ?_, rfl⟩
  · intro h
    have hc : s.m_container = none := by
      simpa [Optional.empty, Option.isNone_iff_eq_none] using h
    exact traverse_of_empty hwf hc 2
  · intro item h
    exact traverse_of_set hwf h (by omega)
  · intro f hf
    rcases hc : s.m_container with _ | item
    · rw [traverse_of_empty hwf hc f, Optional.toList,
        traverse_of_empty hwf hc 2]
    · rw [traverse_of_set hwf hc hf, Optional.toList,
        traverse_of_set hwf hc (by omega)]

/-- Witness for C2: both cardinalities at concrete containers over
`Nat`. -/
theorem iteration_cardinality_witness :
    (Optional.mkWith (0 : Nat) 7).toList = [7] ∧
    (Optional.mkEmpty (0 : Nat)).toList = [] := by
  constructor
  · exact (iteration_cardinality (Optional.mkWith (0 : Nat) 7)
      (wf_mkWith 0 7)).2.1 { next := NodeRef.sentinel, data := 7 } rfl
  · exact (iteration_cardinality (Optional.mkEmpty (0 : Nat))
      (wf_mkEmpty 0)).1 rfl

/-- C10.  On a set container, dereferencing the `begin()` iterator and
calling `get()` both read the `data` field of the same node
`*m_container`: they yield the same stored value. -/
theorem get_iteration_agreement {T : Type} (s : Optional T) (hwf : s.WF)
    (item : Item T) (h : s.m_container = some item) :
    Iterator.deref s.begin s = some item.data ∧
    s.get = Except.ok item.data := by
  obtain ⟨hnext, _⟩ := hwf.2 item h
  constructor
  · simp [Optional.begin, hnext, Iterator.deref, Optional.nodeAt, h]
  · simp [Optional.get, h]

/-- Witness for C10 at a concrete set container over `Nat`. -/
theorem get_iteration_agreement_witness :
    Iterator.deref (Optional.mkWith (0 : Nat) 7).begin
        (Optional.mkWith (0 : Nat) 7) = some 7 ∧
    (Optional.mkWith (0 : Nat) 7).get = Except.ok 7 :=
  get_iteration_agreement (Optional.mkWith (0 : Nat) 7) (wf_mkWith 0 7)
    { next := NodeRef.sentinel, data := 7 } rfl

end OptCpp

namespace OptCpp

/-- C4.  `update` is private and no public member function calls it, so a
second set is unreachable through the public API (`PublicOp` lists every
public member function and none invokes `update`); moreover the internal
path itself is defensive: calling `update` on an already-set container
throws the `FaultedState` error before any member is assigned, leaving
the object state — and hence the stored value — unmodified. -/
theorem no_reset {T : Type} (s : Optional T) (v d : T)
    (h : s.defined = true) :
    (s.update (Except.ok v) d).1
      = Except.error (CppError.faultedState faultedStateMsg) ∧
    (s.update (Except.ok v) d).2 = s ∧
    (s.update (Except.ok v) d).2.get = s.get := by
  have hc : s.m_container.isSome = true := h
  refine ⟨?_, ?_, ?_⟩ <;> simp [Optional.update, hc]

/-- Witness for C4: re-setting a concrete set container over `Nat`. -/
theorem no_reset_witness :
    ((Optional.mkWith (0 : Nat) 7).update (Except.ok 5) 0).1
      = Except.error (CppError.faultedState faultedStateMsg) ∧
    ((Optional.mkWith (0 : Nat) 7).update (Except.ok 5) 0).2
      = Optional.mkWith 0 7 :=
  ⟨(no_reset (Optional.mkWith (0 : Nat) 7) 5 0 rfl).1,
   (no_reset (Optional.mkWith (0 : Nat) 7) 5 0 rfl).2.1⟩

/-- C5.  `update` is atomic: it either fully succeeds or fails leaving
the state untouched.  In particular, when `T`'s constructor throws
during emplacement (`construct = Except.error e`), the error propagates
unchanged — not caught, not wrapped — and the container state is exactly
what it was, so an empty container stays in a well-defined empty state
with no partial value stored. -/
theorem operation_atomicity {T : Type} (s : Optional T) (d : T) :
    (∀ construct, (s.update construct d).1 = Except.ok ()
      ∨ (s.update construct d).2 = s) ∧
    (∀ e : CppError,
      (s.update (Except.error e) d).1 = Except.error e ∧
      (s.update (Except.error e) d).2 = s ∧
      (s.empty = true →
        (s.update (Except.error e) d).2.empty = true ∧
        (s.update (Except.error e) d).2.m_container = none)) := by
  constructor
  · intro construct
    rcases construct with e | v
    · exact Or.inr rfl
    · by_cases hc : s.m_container.isSome
      · exact Or.inr (by simp [Optional.update, hc])
      · exact Or.inl (by simp [Optional.update, hc])
  · intro e
    refine ⟨rfl, rfl, ?_⟩
    intro h
    exact ⟨h, by simpa [Optional.empty, Option.isNone_iff_eq_none] using h⟩

/-- Witness for C5: a failing `T` constructor during emplacement on a
concrete empty container over `Nat`. -/
theorem operation_atomicity_witness :
    ((Optional.mkEmpty (0 : Nat)).update
        (Except.error (CppError.illegalAccess "boom")) 0).1
      = Except.error (CppError.illegalAccess "boom") ∧
    ((Optional.mkEmpty (0 : Nat)).update
        (Except.error (CppError.illegalAccess "boom")) 0).2.empty = true := by
  have h := (operation_atomicity (Optional.mkEmpty (0 : Nat)) 0).2
    (CppError.illegalAccess "boom")
  exact ⟨h.1, (h.2.2 rfl).1⟩

/-- Counterexample for C6: dereferencing the sentinel is not guarded
against and not structurally impossible.  `iterator::operator*` on the
`end()` iterator of a concrete empty container executes and yields the
sentinel node's default-initialized `data` field (here `0`), raising no
error — the source even comments that dereferencing the end node is
unsafe. -/
theorem sentinel_deref_unguarded :
    Iterator.deref (Optional.mkEmpty (0 : Nat)).endIter
      (Optional.mkEmpty (0 : Nat)) = some 0 := rfl

/-- C6 (amended).  The end marker is a distinct, stable sentinel — always
the address of `m_end` — and comparing the current position to it
correctly reports completion after 0 steps on an empty container and
after 1 step on a set container; however, dereferencing the sentinel is
possible and unguarded: it yields the sentinel node's
default-initialized `data` field. -/
theorem sentinel_correctness {T : Type} (s : Optional T) (hwf : s.WF) :
    s.endIter.m_node = NodeRef.sentinel ∧
    (s.empty = true → s.begin = s.endIter) ∧
    (∀ item, s.m_container = some item →
      s.begin ≠ s.endIter ∧ Iterator.inc s.begin s = some s.endIter) ∧
    Iterator.deref s.endIter s = some s.m_end.data := by
  refine ⟨rfl, ?_, ?_, rfl⟩
  · intro h
    have hc : s.m_container = none := by
      simpa [Optional.empty, Option.isNone_iff_eq_none] using h
    simp [Optional.begin, Optional.endIter, hwf.1 hc]
  · intro item h
    obtain ⟨hnext, hcell⟩ := hwf.2 item h
    constructor
    · simp [Optional.begin, Optional.endIter, hnext]
    · simp [Optional.begin, Optional.endIter, hnext, Iterator.inc,
        Optional.nodeAt, h, hcell]

/-- Witness for C6 (amended): the set case at a concrete container over
`Nat`. -/
theorem sentinel_correctness_witness :
    (Optional.mkWith (0 : Nat) 7).begin
        ≠ (Optional.mkWith (0 : Nat) 7).endIter ∧
    Iterator.inc (Optional.mkWith (0 : Nat) 7).begin
        (Optional.mkWith (0 : Nat) 7)
      = some (Optional.mkWith (0 : Nat) 7).endIter :=
  (sentinel_correctness (Optional.mkWith (0 : Nat) 7) (wf_mkWith 0 7)).2.2.1
    { next := NodeRef.sentinel, data := 7 } rfl

/-- C8.  The presence state is set-once and terminal: every sequence of
public operations leaves the object state — hence the presence flag and
the stored value — exactly as it was, and even the private mutator
`update`, applied to a defined container, leaves the state unchanged, so
no Set → Empty transition ever occurs. -/
theorem set_once_terminal {T : Type} (ops : List (PublicOp T))
    (s : Optional T) :
    runSeq ops s = s ∧
    (∀ construct d, s.defined = true → (s.update construct d).2 = s) := by
  constructor
  · induction ops with
    | nil => rfl
    | cons op rest ih =>
      have hop : (PublicOp.run op s).2 = s := by cases op <;> rfl
      calc runSeq (op :: rest) s = runSeq rest (PublicOp.run op s).2 := rfl
        _ = runSeq rest s := by rw [hop]
        _ = s := ih
  · intro construct d h
    rcases construct with e | v
    · rfl
    · have hc : s.m_container.isSome = true := h
      simp [Optional.update, hc]

/-- Witness for C8: a concrete operation sequence on a set container over
`Nat`, and a concrete `update` attempt on it. -/
theorem set_once_terminal_witness :
    runSeq [PublicOp.getOp, PublicOp.iterateOp, PublicOp.isEmptyOp]
        (Optional.mkWith (0 : Nat) 7) = Optional.mkWith 0 7 ∧
    ((Optional.mkWith (0 : Nat) 7).update (Except.ok 5) 0).2
      = Optional.mkWith 0 7 :=
  ⟨(set_once_terminal [PublicOp.getOp, PublicOp.iterateOp,
      PublicOp.isEmptyOp] (Optional.mkWith (0 : Nat) 7)).1,
   (set_once_terminal [] (Optional.mkWith (0 : Nat) 7)).2
      (Except.ok 5) 0 rfl⟩

end OptCpp
